import Mathlib

/-!
Verification of the nutrition enhancement pipeline of `src/functions/main.py`
(food_scanner repository): a shallow embedding of the multi-database USDA
resolver, nutrient extraction, relevance scoring, portion scaling, fallback
generation, and the per-item enhancement orchestrator, followed by theorems
about the claimed properties.
-/

namespace FoodScanner

/-! ### String helpers (Python `in`, `.lower()`, `.replace`) -/

/-- Does the character list `n` occur contiguously inside the second list?
Models Python's substring test `n in h` on strings. -/
def hasSub (n : List Char) : List Char → Bool
  | [] => n.isEmpty
  | c :: t => n.isPrefixOf (c :: t) || hasSub n t

/-- Python `s.lower()` (ASCII case folding suffices for the tokens involved). -/
def lowerStr (s : String) : String := ⟨s.data.map Char.toLower⟩

/-- Python `needle in hay` on strings. -/
def strContains (hay needle : String) : Bool := hasSub needle.data hay.data

/-- Python `s.replace(' ', '_')`. -/
def replaceSpaces (s : String) : String :=
  ⟨s.data.map fun c => if c = ' ' then '_' else c⟩

/-! ### Rounding: Python `round(x, 1)` -/

/-- Python `round(x, 1)`: rounding to one decimal place with ties going to the
even digit (banker's rounding). -/
def pyRound1 (x : ℚ) : ℚ :=
  let y := x * 10
  let n := ⌊y⌋
  let r := y - (n : ℚ)
  (if r < 1/2 then (n : ℚ)
   else if 1/2 < r then ((n + 1 : ℤ) : ℚ)
   else if n % 2 = 0 then (n : ℚ) else ((n + 1 : ℤ) : ℚ)) / 10

/-! ### Relevance scoring (`calculate_relevance_score`) -/

/-- The `db_scores` base-score table inside `calculate_relevance_score`. -/
def db_scores : List (String × ℤ) :=
  [("Foundation", 100), ("SR Legacy", 80), ("Survey (FNDDS)", 60), ("Branded", 40)]

/-- Embeds `calculate_relevance_score(description, database_name)`. -/
def calculate_relevance_score (description database_name : String) : ℤ :=
  let score : ℤ := 0
  let score := score + (db_scores.lookup database_name).getD 0
  let desc_lower := lowerStr description
  let score := score +
    (if description.length < 50 then 20 else if description.length < 100 then 10 else 0)
  let score := score +
    (if ¬ (["brand", "inc.", "corp", "company", "ltd"].any fun w => strContains desc_lower w)
     then 15 else 0)
  let score := score +
    (if ["raw", "fresh", "plain"].any fun w => strContains desc_lower w then 10 else 0)
  score

/-! ### Nutrient extraction (`process_usda_food_item`) -/

/-- One raw `{nutrientName, value, unitName}` entry of a food's `foodNutrients`
array; each field may be absent (the code reads them with `.get` defaults). -/
structure RawNutrient where
  nutrientName : Option String := none
  value : Option ℚ := none
  unitName : Option String := none
deriving DecidableEq

/-- The five semantic nutrient keys the extraction loop can assign. -/
inductive NutrientKey
  | calories | protein | carbohydrates | fat | fiber
deriving DecidableEq

/-- A `{value, unit}` pair stored in the normalized nutrient mapping. -/
structure NutrientValue where
  value : ℚ
  unit : String
deriving DecidableEq

/-- The `nutrients` dict built by `process_usda_food_item`: at most the five
semantic keys are ever present. -/
structure Nutrients where
  calories : Option NutrientValue := none
  protein : Option NutrientValue := none
  carbohydrates : Option NutrientValue := none
  fat : Option NutrientValue := none
  fiber : Option NutrientValue := none
deriving DecidableEq

/-- Dict read `nutrients.get(k)`. -/
def Nutrients.get (m : Nutrients) : NutrientKey → Option NutrientValue
  | .calories => m.calories
  | .protein => m.protein
  | .carbohydrates => m.carbohydrates
  | .fat => m.fat
  | .fiber => m.fiber

/-- Dict write `nutrients[k] = v`. -/
def Nutrients.set (m : Nutrients) : NutrientKey → NutrientValue → Nutrients
  | .calories, v => { m with calories := some v }
  | .protein, v => { m with protein := some v }
  | .carbohydrates, v => { m with carbohydrates := some v }
  | .fat, v => { m with fat := some v }
  | .fiber, v => { m with fiber := some v }

/-- The `if`/`elif` classification chain of `process_usda_food_item`, applied to
the lowercased raw nutrient name; the first matching clause wins. -/
def classifyNutrient (raw_name : String) : Option NutrientKey :=
  let nutrient_name := lowerStr raw_name
  if strContains nutrient_name "energy" || strContains nutrient_name "calorie" then
    some .calories
  else if strContains nutrient_name "protein" then some .protein
  else if strContains nutrient_name "carbohydrate" then some .carbohydrates
  else if strContains nutrient_name "total lipid" ||
      (strContains nutrient_name "fat" && !strContains nutrient_name "sat") then some .fat
  else if strContains nutrient_name "fiber" then some .fiber
  else none

/-- One iteration of the extraction loop over `foodNutrients`. -/
def extractStep (nutrients : Nutrients) (nutrient : RawNutrient) : Nutrients :=
  match classifyNutrient (nutrient.nutrientName.getD "") with
  | some k => nutrients.set k ⟨nutrient.value.getD 0, nutrient.unitName.getD ""⟩
  | none => nutrients

/-- The nutrient-extraction loop of `process_usda_food_item`. -/
def extractNutrients (entries : List RawNutrient) : Nutrients :=
  entries.foldl extractStep {}

/-! ### Candidate records -/

/-- One raw food record of a source's `foods` response array; every field the
code reads, each possibly absent. -/
structure RawFood where
  fdcId : Option ℤ := none
  description : Option String := none
  ndbNumber : Option String := none
  dataType : Option String := none
  foodNutrients : List RawNutrient := []
  brandOwner : Option String := none
  ingredients : Option String := none
  servingSize : Option ℚ := none
  servingSizeUnit : Option String := none
deriving DecidableEq

/-- The dict returned by `process_usda_food_item(food, database_name, priority)`. -/
structure Candidate where
  fdcId : Option ℤ
  ndb_number : String
  description : String
  dataType : Option String
  nutrients : Nutrients
  data_source : String
  database_priority : ℤ
  relevance_score : ℤ
  brandOwner : Option String
  ingredients : Option String
  servingSize : Option ℚ
  servingSizeUnit : Option String
deriving DecidableEq

/-- Embeds `process_usda_food_item(food, database_name, priority)` (with typed
input the function's own `try`/`except` can never fire, so it is total). -/
def process_usda_food_item (food : RawFood) (database_name : String) (priority : ℤ) :
    Candidate :=
  let description := food.description.getD ""
  { fdcId := food.fdcId
    ndb_number := food.ndbNumber.getD "N/A"
    description := description
    dataType := food.dataType
    nutrients := extractNutrients food.foodNutrients
    data_source := "USDA_" ++ replaceSpaces database_name
    database_priority := priority
    relevance_score := calculate_relevance_score description database_name
    brandOwner := food.brandOwner
    ingredients := food.ingredients
    servingSize := food.servingSize
    servingSizeUnit := food.servingSizeUnit }

/-! ### The multi-database resolver (`comprehensive_usda_search`) -/

/-- One entry of the `database_searches` priority list. -/
structure DbInfo where
  name : String
  dataType : String
  priority : ℤ
deriving DecidableEq

/-- The fixed `database_searches` list of `comprehensive_usda_search`. -/
def database_searches : List DbInfo :=
  [⟨"Foundation", "Foundation", 1⟩,
   ⟨"SR Legacy", "SR Legacy", 2⟩,
   ⟨"Survey (FNDDS)", "Survey (FNDDS)", 3⟩,
   ⟨"Branded", "Branded", 4⟩]

/-- Outcome of one source's HTTP query: the decoded `foods` array of a
successful response, or a raised exception (network error, timeout, non-2xx
status, bad JSON) caught by the per-source `except`. -/
inductive SourceOutcome
  | ok (foods : List RawFood)
  | err
deriving DecidableEq

/-- An environment assigning to each database name the outcome its query yields. -/
def SourceEnv := String → SourceOutcome

/-- The candidates one database contributes inside the resolver loop: none when
its query raises (catch-and-continue), otherwise each returned food processed
in order. -/
def sourceCands (env : SourceEnv) (db : DbInfo) : List Candidate :=
  match env db.name with
  | .err => []
  | .ok foods => foods.map fun f => process_usda_food_item f db.name db.priority

/-- The `all_results` accumulation across the whole database loop (pre-sort). -/
def collectedCands (env : SourceEnv) : List Candidate :=
  database_searches.foldl (fun acc db => acc ++ sourceCands env db) []

/-- Sort key of the final `all_results.sort(key=...)`: ascending
`database_priority`, then descending `relevance_score` (Python tuple order). -/
def sortKey (c : Candidate) : ℤ × ℤ := (c.database_priority, -c.relevance_score)

/-- The comparison realised by the Python sort key `(database_priority,
-relevance_score)`: strictly lower priority number first; on equal priority,
higher relevance score first. -/
def keyLE (c d : Candidate) : Prop :=
  c.database_priority < d.database_priority ∨
    (c.database_priority = d.database_priority ∧ d.relevance_score ≤ c.relevance_score)

instance : DecidableRel keyLE := fun c d => by unfold keyLE; infer_instance

instance : IsTotal Candidate keyLE := ⟨fun a b => by unfold keyLE; omega⟩

instance : IsTrans Candidate keyLE := ⟨fun a b c => by unfold keyLE; omega⟩

/-- The dict returned by `comprehensive_usda_search`: the error dict carries
only `status`/`error`; the success dict carries the other fields. -/
structure SearchResult where
  status : String
  error : Option String := none
  total_results : Option ℕ := none
  best_match : Option Candidate := none
  all_results : List Candidate := []
  databases_searched : List String := []
  search_query : Option String := none
deriving DecidableEq

/-- Embeds `comprehensive_usda_search(food_name)`. `usda_key_present` models the
truthiness of `USDA_API_KEY`; `env` gives each source query's outcome. The
`best_match` is the first candidate appended (code sets it when still `None`),
and the returned `all_results` is the sorted list truncated to 20. -/
def comprehensive_usda_search (usda_key_present : Bool) (env : SourceEnv)
    (food_name : String) : SearchResult :=
  if !usda_key_present then
    { status := "error", error := some "No USDA API key" }
  else
    let all_results := collectedCands env
    let best_match := all_results.head?
    let sorted := all_results.insertionSort keyLE
    { status := "success"
      total_results := some all_results.length
      best_match := best_match
      all_results := sorted.take 20
      databases_searched := database_searches.map DbInfo.name
      search_query := some food_name }

/-! ### Orchestrator (`enhance_with_comprehensive_usda`) and fallback -/

/-- One food guess dict coming out of the vision stage (`initial_results`
item); every field the enhancement code reads, each possibly absent. -/
structure Item where
  name : Option String := none
  estimated_weight_grams : Option ℚ := none
  confidence : Option ℚ := none
  food_category : Option String := none
  preparation_method : Option String := none
deriving DecidableEq

/-- The scaled `nutrients` sub-dict of an enriched record. -/
structure ScaledNutrients where
  protein : ℚ
  carbs : ℚ
  fat : ℚ
  fiber : ℚ
deriving DecidableEq

/-- One output record of the enhancement stage. -/
structure EnrichedFood where
  name : String
  calories_per_100g : ℚ
  estimated_weight_grams : ℚ
  total_calories : ℚ
  confidence : ℚ
  nutrients : ScaledNutrients
  data_source : String
  database_match : String
  fdc_id : Option ℤ
  ndb_number : String
  food_category : String
  preparation_method : String
  usda_search_results : ℕ
  databases_searched : List String
deriving DecidableEq

/-- The matched-path record construction of `enhance_with_comprehensive_usda`
(the body of the `if status == 'success' and best_match` branch). -/
def buildMatchedItem (item : Item) (best_match : Candidate)
    (nutrition_data : SearchResult) : EnrichedFood :=
  let food_name := item.name.getD ""
  let estimated_weight := item.estimated_weight_grams.getD 100
  let nutrients := best_match.nutrients
  let calories_per_100g := ((nutrients.get .calories).map NutrientValue.value).getD 200
  let scaling_factor := estimated_weight / 100
  let total_calories := calories_per_100g * scaling_factor
  { name := food_name
    calories_per_100g := calories_per_100g
    estimated_weight_grams := estimated_weight
    total_calories := pyRound1 total_calories
    confidence := item.confidence.getD (4/5)
    nutrients :=
      { protein := pyRound1 (((nutrients.get .protein).map NutrientValue.value).getD 0
          * scaling_factor)
        carbs := pyRound1 (((nutrients.get .carbohydrates).map NutrientValue.value).getD 0
          * scaling_factor)
        fat := pyRound1 (((nutrients.get .fat).map NutrientValue.value).getD 0
          * scaling_factor)
        fiber := pyRound1 (((nutrients.get .fiber).map NutrientValue.value).getD 0
          * scaling_factor) }
    data_source := best_match.data_source
    database_match := best_match.description
    fdc_id := best_match.fdcId
    ndb_number := best_match.ndb_number
    food_category := item.food_category.getD "other"
    preparation_method := item.preparation_method.getD "unknown"
    usda_search_results := nutrition_data.all_results.length
    databases_searched := nutrition_data.databases_searched }

/-- Embeds `create_fallback_item(item)`. -/
def create_fallback_item (item : Item) : EnrichedFood :=
  let estimated_weight := item.estimated_weight_grams.getD 100
  { name := item.name.getD "Unknown Food"
    calories_per_100g := 200
    estimated_weight_grams := estimated_weight
    total_calories := pyRound1 (200 * estimated_weight / 100)
    confidence := max (item.confidence.getD (1/2) - 1/5) (3/10)
    nutrients :=
      { protein := pyRound1 (8 * estimated_weight / 100)
        carbs := pyRound1 (30 * estimated_weight / 100)
        fat := pyRound1 (10 * estimated_weight / 100)
        fiber := pyRound1 (4 * estimated_weight / 100) }
    data_source := "Estimated"
    database_match := "No USDA match found"
    fdc_id := none
    ndb_number := "N/A"
    food_category := item.food_category.getD "unknown"
    preparation_method := item.preparation_method.getD "unknown"
    usda_search_results := 0
    databases_searched := [] }

/-- What the per-item `try` block of the orchestrator experiences for one
guess: the resolver's returned dict, or an exception raised while processing
that item. -/
inductive LookupOutcome
  | result (nutrition_data : SearchResult)
  | exn
deriving DecidableEq

/-- One iteration of the orchestrator loop: the matched path runs when the
result has `status == 'success'` and a truthy `best_match`; every other case
(error status, missing match, exception) produces the fallback item. -/
def enhanceItem (item : Item) (o : LookupOutcome) : EnrichedFood :=
  match o with
  | .exn => create_fallback_item item
  | .result nutrition_data =>
    match nutrition_data.best_match with
    | some best_match =>
      if nutrition_data.status = "success" then
        buildMatchedItem item best_match nutrition_data
      else create_fallback_item item
    | none => create_fallback_item item

/-- Embeds `enhance_with_comprehensive_usda(initial_results)`: the loop visits
the guesses in order; `outcomes i` is what processing the `i`-th guess
experiences. -/
def enhance_with_comprehensive_usda (initial_results : List Item)
    (outcomes : ℕ → LookupOutcome) : List EnrichedFood :=
  initial_results.enum.map fun p => enhanceItem p.2 (outcomes p.1)

/-! ### Spec-side definitions (for refinement claims) -/

/-- Spec C7 wording: base score by source database identity
(Foundation 100, SR Legacy 80, Survey 60, Branded 40, unknown 0). -/
def specBaseScore (database_name : String) : ℤ :=
  if database_name = "Foundation" then 100
  else if database_name = "SR Legacy" then 80
  else if database_name = "Survey (FNDDS)" then 60
  else if database_name = "Branded" then 40
  else 0

/-- Spec C7 wording: +20 when shorter than 50 characters, else +10 when
shorter than 100, else 0. -/
def specLengthBonus (description : String) : ℤ :=
  if description.length < 50 then 20 else if description.length < 100 then 10 else 0

/-- Spec C7 wording: +15 when the lower-cased description contains none of the
brand tokens. -/
def specBrandBonus (description : String) : ℤ :=
  if ¬ (["brand", "inc.", "corp", "company", "ltd"].any fun w =>
      strContains (lowerStr description) w) then 15 else 0

/-- Spec C7 wording: +10 when the lower-cased description contains any of
raw / fresh / plain. -/
def specFreshBonus (description : String) : ℤ :=
  if ["raw", "fresh", "plain"].any fun w => strContains (lowerStr description) w
  then 10 else 0

/-- Spec C8 wording: classification by case-insensitive substring match,
first match wins, in the stated clause order. -/
def specClassify (raw_name : String) : Option NutrientKey :=
  let lowered := lowerStr raw_name
  if strContains lowered "energy" || strContains lowered "calorie" then some .calories
  else if strContains lowered "protein" then some .protein
  else if strContains lowered "carbohydrate" then some .carbohydrates
  else if strContains lowered "total lipid" ||
      (strContains lowered "fat" && !strContains lowered "sat") then some .fat
  else if strContains lowered "fiber" then some .fiber
  else none

/-- The condition under which the orchestrator produces a fallback record for
one item: an exception, a non-success status, or a missing best match. -/
def fallbackTriggered : LookupOutcome → Prop
  | .exn => True
  | .result nutrition_data =>
    ¬ (nutrition_data.status = "success" ∧ nutrition_data.best_match.isSome = true)

/-! ### Helper lemmas -/

lemma db_scores_lookup (database_name : String) :
    (db_scores.lookup database_name).getD 0 = specBaseScore database_name := by
  by_cases h1 : database_name = "Foundation"
  · subst h1; rfl
  · by_cases h2 : database_name = "SR Legacy"
    · subst h2; rfl
    · by_cases h3 : database_name = "Survey (FNDDS)"
      · subst h3; rfl
      · by_cases h4 : database_name = "Branded"
        · subst h4; rfl
        · have e1 := beq_eq_false_iff_ne.mpr h1
          have e2 := beq_eq_false_iff_ne.mpr h2
          have e3 := beq_eq_false_iff_ne.mpr h3
          have e4 := beq_eq_false_iff_ne.mpr h4
          simp [db_scores, List.lookup, e1, e2, e3, e4, specBaseScore, h1, h2, h3, h4]

lemma Nutrients.get_set (m : Nutrients) (k k' : NutrientKey) (v : NutrientValue) :
    (m.set k' v).get k = if k' = k then some v else m.get k := by
  cases k' <;> cases k <;> simp [Nutrients.set, Nutrients.get]

lemma extractStep_get (acc : Nutrients) (e : RawNutrient) (k : NutrientKey) :
    (extractStep acc e).get k =
      if classifyNutrient (e.nutrientName.getD "") = some k
      then some ⟨e.value.getD 0, e.unitName.getD ""⟩
      else acc.get k := by
  unfold extractStep
  rcases h : classifyNutrient (e.nutrientName.getD "") with _ | k'
  · simp [h]
  · simp [h, Nutrients.get_set]

lemma extract_foldl_get (entries : List RawNutrient) (acc : Nutrients) (k : NutrientKey) :
    (entries.foldl extractStep acc).get k =
      match (entries.filter fun e =>
          decide (classifyNutrient (e.nutrientName.getD "") = some k)).getLast? with
      | some e => some ⟨e.value.getD 0, e.unitName.getD ""⟩
      | none => acc.get k := by
  induction entries generalizing acc with
  | nil => rfl
  | cons e t ih =>
    rw [List.foldl_cons, ih, extractStep_get]
    by_cases hpe : classifyNutrient (e.nutrientName.getD "") = some k
    · rw [List.filter_cons_of_pos (by simp [hpe])]
      rcases hf : (t.filter fun e =>
          decide (classifyNutrient (e.nutrientName.getD "") = some k)) with _ | ⟨y, ys⟩
      · simp [hf, hpe]
      · simp [hf, List.getLast?_cons]
    · rw [List.filter_cons_of_neg (by simp [hpe])]
      simp [hpe]

/-! ### Claim theorems -/

/-- C4: every enriched record (matched and fallback path alike) satisfies
`totalCalories = round1(caloriesPer100 * estimatedWeightGrams / 100)`; on the
matched path each macro equals the normalized value (0 when absent) scaled by
`estimatedWeightGrams/100` and rounded to 1 decimal, while calories default to
200 when the match has no calories entry. -/
theorem scaling_identity_and_defaults (item : Item) (best_match : Candidate)
    (nutrition_data : SearchResult) :
    (buildMatchedItem item best_match nutrition_data).total_calories =
      pyRound1 ((buildMatchedItem item best_match nutrition_data).calories_per_100g *
        (buildMatchedItem item best_match nutrition_data).estimated_weight_grams / 100) ∧
    (create_fallback_item item).total_calories =
      pyRound1 ((create_fallback_item item).calories_per_100g *
        (create_fallback_item item).estimated_weight_grams / 100) ∧
    (buildMatchedItem item best_match nutrition_data).calories_per_100g =
      ((best_match.nutrients.get .calories).map NutrientValue.value).getD 200 ∧
    (buildMatchedItem item best_match nutrition_data).nutrients.protein =
      pyRound1 (((best_match.nutrients.get .protein).map NutrientValue.value).getD 0 *
        (item.estimated_weight_grams.getD 100 / 100)) ∧
    (buildMatchedItem item best_match nutrition_data).nutrients.carbs =
      pyRound1 (((best_match.nutrients.get .carbohydrates).map NutrientValue.value).getD 0 *
        (item.estimated_weight_grams.getD 100 / 100)) ∧
    (buildMatchedItem item best_match nutrition_data).nutrients.fat =
      pyRound1 (((best_match.nutrients.get .fat).map NutrientValue.value).getD 0 *
        (item.estimated_weight_grams.getD 100 / 100)) ∧
    (buildMatchedItem item best_match nutrition_data).nutrients.fiber =
      pyRound1 (((best_match.nutrients.get .fiber).map NutrientValue.value).getD 0 *
        (item.estimated_weight_grams.getD 100 / 100)) := by
  refine ⟨?_, ?_, rfl, rfl, rfl, rfl, rfl⟩
  · show pyRound1 (((best_match.nutrients.get .calories).map NutrientValue.value).getD 200 *
        (item.estimated_weight_grams.getD 100 / 100)) =
      pyRound1 (((best_match.nutrients.get .calories).map NutrientValue.value).getD 200 *
        item.estimated_weight_grams.getD 100 / 100)
    exact congrArg pyRound1 (by ring)
  · show pyRound1 (200 * item.estimated_weight_grams.getD 100 / 100) =
      pyRound1 (200 * item.estimated_weight_grams.getD 100 / 100)
    rfl

/-- C5: every fallback record has `confidence = max(original - 0.2, 0.3)`,
`dataSource = "Estimated"`, and the fixed 200/8/30/10/4 per-100g baseline
scaled by `estimatedWeightGrams/100` and rounded to 1 decimal place. -/
theorem fallback_contract (item : Item) :
    (create_fallback_item item).confidence =
      max (item.confidence.getD (1/2) - 1/5) (3/10) ∧
    (create_fallback_item item).data_source = "Estimated" ∧
    (create_fallback_item item).calories_per_100g = 200 ∧
    (create_fallback_item item).total_calories =
      pyRound1 (200 * item.estimated_weight_grams.getD 100 / 100) ∧
    (create_fallback_item item).nutrients.protein =
      pyRound1 (8 * item.estimated_weight_grams.getD 100 / 100) ∧
    (create_fallback_item item).nutrients.carbs =
      pyRound1 (30 * item.estimated_weight_grams.getD 100 / 100) ∧
    (create_fallback_item item).nutrients.fat =
      pyRound1 (10 * item.estimated_weight_grams.getD 100 / 100) ∧
    (create_fallback_item item).nutrients.fiber =
      pyRound1 (4 * item.estimated_weight_grams.getD 100 / 100) :=
  ⟨rfl, rfl, rfl, rfl, rfl, rfl, rfl, rfl⟩

/-- C6: for one guess, the orchestrator emits the fallback record exactly when
the lookup outcome is an exception, a non-success status, or a missing best
match; otherwise it emits the scaler-built record from the best match. -/
theorem per_item_fallback_iff (item : Item) (o : LookupOutcome) :
    (fallbackTriggered o → enhanceItem item o = create_fallback_item item) ∧
    (¬ fallbackTriggered o →
      ∃ nutrition_data best_match,
        o = .result nutrition_data ∧
        nutrition_data.status = "success" ∧
        nutrition_data.best_match = some best_match ∧
        enhanceItem item o = buildMatchedItem item best_match nutrition_data) := by
  cases o with
  | exn => exact ⟨fun _ => rfl, fun h => absurd trivial h⟩
  | result nd =>
    rcases hbm : nd.best_match with _ | bm
    · refine ⟨fun _ => ?_, fun h => absurd ?_ h⟩
      · simp [enhanceItem, hbm]
      · show ¬ _
        simp [hbm]
    · by_cases hs : nd.status = "success"
      · refine ⟨fun h => absurd ?_ h, fun _ => ⟨nd, bm, rfl, hs, hbm, ?_⟩⟩
        · exact ⟨hs, by simp [hbm]⟩
        · simp [enhanceItem, hbm, hs]
      · refine ⟨fun _ => ?_, fun h => absurd (fun hc => hs hc.1) h⟩
        simp [enhanceItem, hbm, hs]

/-- C6 witness: an exception outcome yields exactly the fallback record. -/
theorem per_item_fallback_iff_witness :
    enhanceItem {} .exn = create_fallback_item {} :=
  (per_item_fallback_iff {} .exn).1 trivial

/-- C7: the relevance scorer is a non-negative integer-valued function equal to
the sum of the four independent contributions stated in the claim. -/
theorem relevance_score_formula (description database_name : String) :
    0 ≤ calculate_relevance_score description database_name ∧
    calculate_relevance_score description database_name =
      specBaseScore database_name + specLengthBonus description +
        specBrandBonus description + specFreshBonus description := by
  have heq : calculate_relevance_score description database_name =
      specBaseScore database_name + specLengthBonus description +
        specBrandBonus description + specFreshBonus description := by
    simp only [calculate_relevance_score, specLengthBonus, specBrandBonus, specFreshBonus]
    rw [db_scores_lookup]
    ring
  refine ⟨?_, heq⟩
  rw [heq]
  have h1 : 0 ≤ specBaseScore database_name := by
    unfold specBaseScore; split_ifs <;> norm_num
  have h2 : 0 ≤ specLengthBonus description := by
    unfold specLengthBonus; split_ifs <;> norm_num
  have h3 : 0 ≤ specBrandBonus description := by
    unfold specBrandBonus; split_ifs <;> norm_num
  have h4 : 0 ≤ specFreshBonus description := by
    unfold specFreshBonus; split_ifs <;> norm_num
  linarith

/-- C8: the extractor classifies each raw entry by the stated case-insensitive
first-match-wins rule (unmatched entries are discarded), and when several
entries map to one semantic key the mapping holds the last such entry's value. -/
theorem extractor_classification_last_write_wins :
    (∀ raw_name : String, classifyNutrient raw_name = specClassify raw_name) ∧
    ∀ (entries : List RawNutrient) (k : NutrientKey),
      (extractNutrients entries).get k =
        match (entries.filter fun e =>
            decide (classifyNutrient (e.nutrientName.getD "") = some k)).getLast? with
        | some e => some ⟨e.value.getD 0, e.unitName.getD ""⟩
        | none => none := by
  refine ⟨fun _ => rfl, fun entries k => ?_⟩
  rw [extractNutrients, extract_foldl_get]
  cases (entries.filter fun e =>
      decide (classifyNutrient (e.nutrientName.getD "") = some k)).getLast? with
  | none => cases k <;> rfl
  | some x => rfl

/-! ### Orchestrator claims (C1) -/

lemma enhance_getElem (initial_results : List Item) (outcomes : ℕ → LookupOutcome)
    (j : ℕ) :
    (enhance_with_comprehensive_usda initial_results outcomes)[j]? =
      initial_results[j]?.map fun it => enhanceItem it (outcomes j) := by
  simp only [enhance_with_comprehensive_usda, List.getElem?_map, List.getElem?_enum]
  cases initial_results[j]? <;> rfl

/-- C1: for every input sequence the orchestrator returns exactly one enriched
record per guess, in input order (unconditionally); additionally, when the
`i`-th guess's enrichment raises, position `i` holds the fallback record, and
every other position is exactly what it would have been under any outcome
assignment that differs only at `i`. -/
theorem orchestrator_totality_order_isolation
    (initial_results : List Item) (outcomes outcomes2 : ℕ → LookupOutcome) (i : ℕ) :
    (enhance_with_comprehensive_usda initial_results outcomes).length =
      initial_results.length ∧
    (∀ j, (enhance_with_comprehensive_usda initial_results outcomes)[j]? =
      initial_results[j]?.map fun it => enhanceItem it (outcomes j)) ∧
    (∀ hi : i < initial_results.length, outcomes i = .exn →
      (enhance_with_comprehensive_usda initial_results outcomes)[i]? =
        some (create_fallback_item initial_results[i])) ∧
    ((∀ j, j ≠ i → outcomes j = outcomes2 j) →
      ∀ j, j ≠ i →
        (enhance_with_comprehensive_usda initial_results outcomes)[j]? =
          (enhance_with_comprehensive_usda initial_results outcomes2)[j]?) := by
  refine ⟨?_, fun j => enhance_getElem _ _ _, ?_, ?_⟩
  · simp [enhance_with_comprehensive_usda]
  · intro hi hexn
    rw [enhance_getElem, List.getElem?_eq_getElem hi, hexn]
    rfl
  · intro hagree j hj
    rw [enhance_getElem, enhance_getElem, hagree j hj]

/-- The three-guess batch of the C1 witness. -/
def wGuesses : List Item :=
  [{ name := some "rice" }, { name := some "egg" }, { name := some "milk" }]

/-- Outcome assignment of the C1 witness: the second guess raises. -/
def wOutcomes : ℕ → LookupOutcome :=
  fun j => if j = 1 then .exn else .result { status := "error" }

/-- C1 witness: a three-guess batch whose second item raises. -/
theorem orchestrator_totality_order_isolation_witness :
    (enhance_with_comprehensive_usda wGuesses wOutcomes).length = wGuesses.length ∧
    (∀ j, (enhance_with_comprehensive_usda wGuesses wOutcomes)[j]? =
      wGuesses[j]?.map fun it => enhanceItem it (wOutcomes j)) ∧
    (enhance_with_comprehensive_usda wGuesses wOutcomes)[1]? =
      some (create_fallback_item { name := some "egg" }) ∧
    ∀ j, j ≠ 1 →
      (enhance_with_comprehensive_usda wGuesses wOutcomes)[j]? =
        (enhance_with_comprehensive_usda wGuesses wOutcomes)[j]? :=
  ⟨(orchestrator_totality_order_isolation wGuesses wOutcomes wOutcomes 1).1,
    (orchestrator_totality_order_isolation wGuesses wOutcomes wOutcomes 1).2.1,
    (orchestrator_totality_order_isolation wGuesses wOutcomes wOutcomes 1).2.2.1
      (by decide) rfl,
    (orchestrator_totality_order_isolation wGuesses wOutcomes wOutcomes 1).2.2.2
      (fun _ _ => rfl)⟩

/-! ### Resolver claims (C2, C3, C9, C10) -/

/-- The environment in which every source query raises. -/
def errEnv : SourceEnv := fun _ => .err

lemma collectedCands_eq (env : SourceEnv) :
    collectedCands env =
      sourceCands env ⟨"Foundation", "Foundation", 1⟩ ++
        (sourceCands env ⟨"SR Legacy", "SR Legacy", 2⟩ ++
          (sourceCands env ⟨"Survey (FNDDS)", "Survey (FNDDS)", 3⟩ ++
            sourceCands env ⟨"Branded", "Branded", 4⟩)) := by
  simp [collectedCands, database_searches]

/-- C2 counterexample: with the API key present and every source query
failing (so no source yields any candidate), the resolver returns
`status = "success"`, not `status = "error"`. -/
theorem resolver_error_status_counterexample :
    (comprehensive_usda_search true errEnv "apple").status = "success" ∧
    ¬ (comprehensive_usda_search true errEnv "apple").status = "error" := by
  refine ⟨rfl, fun h => ?_⟩
  rw [show (comprehensive_usda_search true errEnv "apple").status = "success" from rfl] at h
  exact absurd h (by decide)

/-- C2 (amended): a missing API key gives `status = "error"` with no best
match; a present key with zero collected candidates gives `status = "success"`
and `bestMatch = none` (still no best match, signalling fallback). -/
theorem resolver_no_candidates_amended (usda_key_present : Bool) (env : SourceEnv)
    (food_name : String) :
    (usda_key_present = false →
      (comprehensive_usda_search usda_key_present env food_name).status = "error" ∧
      (comprehensive_usda_search usda_key_present env food_name).best_match = none) ∧
    (usda_key_present = true → collectedCands env = [] →
      (comprehensive_usda_search usda_key_present env food_name).status = "success" ∧
      (comprehensive_usda_search usda_key_present env food_name).best_match = none) := by
  constructor
  · rintro rfl
    exact ⟨rfl, rfl⟩
  · rintro rfl hnil
    refine ⟨rfl, ?_⟩
    show (collectedCands env).head? = none
    rw [hnil]
    rfl

/-- C2 witness: both branches of the amended statement at concrete inputs. -/
theorem resolver_no_candidates_amended_witness :
    ((comprehensive_usda_search false errEnv "apple").status = "error" ∧
      (comprehensive_usda_search false errEnv "apple").best_match = none) ∧
    ((comprehensive_usda_search true errEnv "apple").status = "success" ∧
      (comprehensive_usda_search true errEnv "apple").best_match = none) :=
  ⟨(resolver_no_candidates_amended false errEnv "apple").1 rfl,
    (resolver_no_candidates_amended true errEnv "apple").2 rfl rfl⟩

/-- C3: when at least one candidate is collected, the best match is the first
candidate collected (head of the concatenation in priority order), i.e. the
first candidate of the earliest source in the fixed priority list that
contributed at least one candidate. -/
theorem best_match_first_source_wins (env : SourceEnv) (food_name : String)
    (h : collectedCands env ≠ []) :
    (comprehensive_usda_search true env food_name).best_match =
      (collectedCands env).head? ∧
    ∃ dbs_before db dbs_after,
      database_searches = dbs_before ++ db :: dbs_after ∧
      (∀ d ∈ dbs_before, sourceCands env d = []) ∧
      sourceCands env db ≠ [] ∧
      (comprehensive_usda_search true env food_name).best_match =
        (sourceCands env db).head? := by
  have hbm : (comprehensive_usda_search true env food_name).best_match =
      (collectedCands env).head? := rfl
  have hc := collectedCands_eq env
  refine ⟨hbm, ?_⟩
  by_cases hFe : sourceCands env ⟨"Foundation", "Foundation", 1⟩ = []
  · by_cases hSe : sourceCands env ⟨"SR Legacy", "SR Legacy", 2⟩ = []
    · by_cases hVe : sourceCands env ⟨"Survey (FNDDS)", "Survey (FNDDS)", 3⟩ = []
      · have hBe : sourceCands env ⟨"Branded", "Branded", 4⟩ ≠ [] := by
          intro hB0
          exact h (by rw [hc, hFe, hSe, hVe, hB0]; rfl)
        obtain ⟨b, bs, hb⟩ := List.exists_cons_of_ne_nil hBe
        refine ⟨[⟨"Foundation", "Foundation", 1⟩, ⟨"SR Legacy", "SR Legacy", 2⟩,
          ⟨"Survey (FNDDS)", "Survey (FNDDS)", 3⟩], ⟨"Branded", "Branded", 4⟩, [],
          rfl, ?_, hBe, ?_⟩
        · intro d hd
          simp only [List.mem_cons, List.not_mem_nil, or_false] at hd
          rcases hd with rfl | rfl | rfl
          exacts [hFe, hSe, hVe]
        · rw [hbm, hc, hFe, hSe, hVe, hb]
          simp
      · obtain ⟨v, vs, hv⟩ := List.exists_cons_of_ne_nil hVe
        refine ⟨[⟨"Foundation", "Foundation", 1⟩, ⟨"SR Legacy", "SR Legacy", 2⟩],
          ⟨"Survey (FNDDS)", "Survey (FNDDS)", 3⟩, [⟨"Branded", "Branded", 4⟩],
          rfl, ?_, hVe, ?_⟩
        · intro d hd
          simp only [List.mem_cons, List.not_mem_nil, or_false] at hd
          rcases hd with rfl | rfl
          exacts [hFe, hSe]
        · rw [hbm, hc, hFe, hSe, hv]
          simp
    · obtain ⟨s, ss, hs⟩ := List.exists_cons_of_ne_nil hSe
      refine ⟨[⟨"Foundation", "Foundation", 1⟩], ⟨"SR Legacy", "SR Legacy", 2⟩,
        [⟨"Survey (FNDDS)", "Survey (FNDDS)", 3⟩, ⟨"Branded", "Branded", 4⟩],
        rfl, ?_, hSe, ?_⟩
      · intro d hd
        simp only [List.mem_cons, List.not_mem_nil, or_false] at hd
        rcases hd with rfl
        exact hFe
      · rw [hbm, hc, hFe, hs]
        simp
  · obtain ⟨f, fs, hf⟩ := List.exists_cons_of_ne_nil hFe
    refine ⟨[], ⟨"Foundation", "Foundation", 1⟩,
      [⟨"SR Legacy", "SR Legacy", 2⟩, ⟨"Survey (FNDDS)", "Survey (FNDDS)", 3⟩,
        ⟨"Branded", "Branded", 4⟩], rfl, fun d hd => absurd hd (List.not_mem_nil d),
      hFe, ?_⟩
    rw [hbm, hc, hf]
    simp

/-- Environment for the C3 witness: the highest-priority source fails, the
second one returns two foods. -/
def c3Env : SourceEnv := fun name =>
  if name = "SR Legacy"
  then .ok [{ description := some "rice" }, { description := some "egg" }]
  else .err

/-- C3 witness. -/
theorem best_match_first_source_wins_witness :
    (comprehensive_usda_search true c3Env "rice").best_match =
      (collectedCands c3Env).head? :=
  (best_match_first_source_wins c3Env "rice" (by decide)).1

/-! ### Sorting claims (C9) -/

lemma keyLE_of_sortKey_eq {a b : Candidate} (h : sortKey a = sortKey b) : keyLE a b := by
  simp only [sortKey, Prod.mk.injEq] at h
  unfold keyLE
  omega

lemma filter_orderedInsert (k : ℤ × ℤ) (a : Candidate) (l : List Candidate) :
    ((l.orderedInsert keyLE a).filter fun c => decide (sortKey c = k)) =
      if sortKey a = k then a :: (l.filter fun c => decide (sortKey c = k))
      else l.filter fun c => decide (sortKey c = k) := by
  induction l with
  | nil =>
    by_cases hak : sortKey a = k <;> simp [List.orderedInsert, hak]
  | cons b t ih =>
    rw [List.orderedInsert]
    by_cases hab : keyLE a b
    · rw [if_pos hab]
      by_cases hak : sortKey a = k <;> simp [List.filter_cons, hak]
    · rw [if_neg hab]
      by_cases hbk : sortKey b = k
      · by_cases hak : sortKey a = k
        · exact absurd (keyLE_of_sortKey_eq (hak.trans hbk.symm)) hab
        · simp [List.filter_cons, hbk, hak, ih]
      · simp [List.filter_cons, hbk, ih]

lemma filter_insertionSort (k : ℤ × ℤ) (l : List Candidate) :
    ((l.insertionSort keyLE).filter fun c => decide (sortKey c = k)) =
      l.filter fun c => decide (sortKey c = k) := by
  induction l with
  | nil => rfl
  | cons a t ih =>
    rw [List.insertionSort, filter_orderedInsert, List.filter_cons]
    by_cases hak : sortKey a = k <;> simp [hak, ih]

/-- C9 (amended): the returned `all_results` is the first 20 entries of the
collected candidates sorted by ascending `database_priority` then descending
`relevance_score`; the sort is a permutation, is ordered under `keyLE`, and is
stable (candidates with any fixed sort key keep their collection order). -/
theorem resolver_returned_order (env : SourceEnv) (food_name : String) :
    (comprehensive_usda_search true env food_name).all_results =
      ((collectedCands env).insertionSort keyLE).take 20 ∧
    ((collectedCands env).insertionSort keyLE).Perm (collectedCands env) ∧
    ((collectedCands env).insertionSort keyLE).Sorted keyLE ∧
    ∀ k : ℤ × ℤ,
      (((collectedCands env).insertionSort keyLE).filter fun c =>
          decide (sortKey c = k)) =
        (collectedCands env).filter fun c => decide (sortKey c = k) :=
  ⟨rfl, List.perm_insertionSort keyLE _, List.sorted_insertionSort keyLE _,
    fun k => filter_insertionSort k _⟩

/-- Environment for the C9 counterexample: every source returns 21 foods, so
84 candidates are collected and the returned list is truncated. -/
def bigEnv : SourceEnv := fun _ => .ok (List.replicate 21 {})

/-- C9 counterexample: the returned candidate sequence is NOT the whole
collected-and-sorted sequence — with 84 collected candidates only 20 are
returned. -/
theorem resolver_full_list_counterexample :
    ¬ (comprehensive_usda_search true bigEnv "rice").all_results =
        (collectedCands bigEnv).insertionSort keyLE := by
  intro h
  have h1 : (comprehensive_usda_search true bigEnv "rice").all_results =
      ((collectedCands bigEnv).insertionSort keyLE).take 20 := rfl
  have hlen : (collectedCands bigEnv).length = 84 := by
    rw [collectedCands_eq]
    simp [sourceCands, bigEnv]
  have h2 := congrArg List.length h
  rw [h1, List.length_take, List.length_insertionSort, hlen] at h2
  norm_num at h2

/-! ### Source isolation (C10) -/

/-- The first (highest-priority) entry of the database list. -/
def foundationDb : DbInfo := ⟨"Foundation", "Foundation", 1⟩

/-- C10: when one source's query raises, the resolver still returns
`status = "success"`, that source contributes no candidates, the collected
candidates are exactly those of the remaining sources in order, and the best
match is chosen among them (head of the collection). -/
theorem source_isolation (env : SourceEnv) (food_name : String) (db : DbInfo)
    (hdb : db ∈ database_searches) (herr : env db.name = .err) :
    (comprehensive_usda_search true env food_name).status = "success" ∧
    sourceCands env db = [] ∧
    collectedCands env =
      ((database_searches.filter fun d => decide (d.name ≠ db.name)).foldl
        (fun acc d => acc ++ sourceCands env d) []) ∧
    (comprehensive_usda_search true env food_name).best_match =
      (collectedCands env).head? := by
  have hsrc : ∀ d : DbInfo, env d.name = .err → sourceCands env d = [] := by
    intro d hd
    unfold sourceCands
    rw [hd]
  simp only [database_searches, List.mem_cons, List.not_mem_nil, or_false] at hdb
  rcases hdb with rfl | rfl | rfl | rfl
  all_goals {
    have hnil := hsrc _ herr
    refine ⟨rfl, hnil, ?_, rfl⟩
    rw [collectedCands_eq, hnil]
    simp [database_searches, List.filter, List.foldl]
  }

/-- Environment for the C10 witness: the highest-priority source raises, the
second source returns one match, the rest raise. -/
def isoEnv : SourceEnv := fun name =>
  if name = "SR Legacy" then .ok [{ description := some "rice" }] else .err

/-- C10 witness: source 1 throwing with source 2 returning one match still
gives a success status and a best match drawn from the collected candidates. -/
theorem source_isolation_witness :
    (comprehensive_usda_search true isoEnv "rice").status = "success" ∧
    sourceCands isoEnv foundationDb = [] ∧
    collectedCands isoEnv =
      ((database_searches.filter fun d => decide (d.name ≠ foundationDb.name)).foldl
        (fun acc d => acc ++ sourceCands isoEnv d) []) ∧
    (comprehensive_usda_search true isoEnv "rice").best_match =
      (collectedCands isoEnv).head? :=
  source_isolation isoEnv "rice" foundationDb (by decide) (by decide)

end FoodScanner
